import Mathlib

/-!
Shallow embedding of the volatility-mcp repository:
  * `volatility_fastapi_server.py` — plugin registry, dispatch, validation,
    the `/analyze/{plugin_name}` HTTP endpoint;
  * `http_client.py` — the `HttpClient` request/response normalization layer;
  * `vol_mcp_server.py` — the `VolatilityMCP` tool wrapper.

Python exceptions are modelled by explicit `Except` values; environment
lookups (`os.getenv`), filesystem probes (`os.path.exists`), subprocess
invocation and the `requests` transport are modelled as function parameters,
since they are external effects the code merely calls.
-/

/-- A Python exception as the code distinguishes them: `ValueError` (raised by
`VolatilityAnalyzer.analyze` on unknown plugin) and `RuntimeError` (raised by
`WindowsPlugin.run`).  `str(e)` of a single-argument exception is its message. -/
inductive PyErr where
  | valueError (msg : String)
  | runtimeError (msg : String)
deriving Repr, DecidableEq

/-- Python `str(e)` for the exceptions above: the message they were built with. -/
def PyErr.str : PyErr → String
  | PyErr.valueError m => m
  | PyErr.runtimeError m => m

/-- A registered plugin as the registry and dispatcher see it: a name and an
execution strategy `run` (the abstract method of `VolatilityPlugin`), which on
an image path either returns output or raises an exception. -/
structure VolatilityPlugin where
  name : String
  run : String → Except PyErr String

/-- A Python `dict` preserving insertion order, as an association list.
`dictInsert` is `d[k] = v`: it overwrites in place when the key is present
(keeping its position) and appends otherwise. -/
def dictInsert {α : Type} : List (String × α) → String → α → List (String × α)
  | [], k, v => [(k, v)]
  | p :: rest, k, v => if p.1 = k then (k, v) :: rest else p :: dictInsert rest k v

/-- `d.get(k)`: the value at the first matching key, or `none`. -/
def dictGet {α : Type} (d : List (String × α)) (k : String) : Option α :=
  (d.find? (fun p => p.1 == k)).map (fun p => p.2)

/-- The registry state `self.plugins : Dict[str, VolatilityPlugin]`. -/
abbrev Registry := List (String × VolatilityPlugin)

/-- `VolatilityAnalyzer.register_plugin`: `self.plugins[plugin.name] = plugin`. -/
def register_plugin (plugins : Registry) (plugin : VolatilityPlugin) : Registry :=
  dictInsert plugins plugin.name plugin

/-- `VolatilityAnalyzer.get_plugin`: `self.plugins.get(name)`. -/
def get_plugin (plugins : Registry) (name : String) : Option VolatilityPlugin :=
  dictGet plugins name

/-- `VolatilityAnalyzer.analyze`: look the plugin up; `if not plugin: raise
ValueError(f"Plugin \x7bplugin_name\x7d not found")`; otherwise run it (its
exception, if any, propagates). -/
def analyze (plugins : Registry) (image_path plugin_name : String) :
    Except PyErr String :=
  match get_plugin plugins plugin_name with
  | none => Except.error (PyErr.valueError ("Plugin " ++ plugin_name ++ " not found"))
  | some plugin => plugin.run image_path

/-- `VolatilityAnalyzer.analyze_all`: iterate the registry in order; store each
plugin's output at its name, catching any exception and storing
`f"Error: \x7bstr(e)\x7d"` instead. -/
def analyze_all (plugins : Registry) (image_path : String) : List (String × String) :=
  plugins.foldl
    (fun results np =>
      dictInsert results np.1
        (match np.2.run image_path with
         | Except.ok out => out
         | Except.error e => "Error: " ++ PyErr.str e))
    []

/-- `VolatilityAnalyzer.validate_plugins`.  `os.getenv` is the `env` parameter
(`none` = unset); Python `if not vol_bin` is also true for the empty string.
The trailing per-plugin loop only guards `isinstance(plugin, WindowsPlugin):
pass` inside a `try`, so it can append nothing; it is the identity fold. -/
def validate_plugins (env : String → Option String) (pathExists : String → Bool)
    (plugins : Registry) : List String :=
  match env "VOLATILITY_BIN" with
  | none => ["VOLATILITY_BIN environment variable is not set"]
  | some vol_bin =>
    if vol_bin = "" then ["VOLATILITY_BIN environment variable is not set"]
    else if pathExists vol_bin = false then
      ["Volatility executable not found at " ++ vol_bin]
    else plugins.foldl (fun errors _ => errors) []

/-- The static data of a `WindowsPlugin`: its registry `name` and the
volatility command identifier `plugin_name` it passes to the executable. -/
structure WindowsPlugin where
  name : String
  plugin_name : String

/-- The outcome of `subprocess.run(argv, capture_output=True, text=True)`. -/
structure ExecResult where
  returncode : Int
  stdout : String
  stderr : String

/-- `WindowsPlugin.run`: read `VOLATILITY_BIN` (Python `if not vol_bin` also
catches the empty string; the source's message contains a stray `')`), check
the path exists, invoke `[vol_bin, "-f", image_path, self.plugin_name]`, and
raise on a non-zero exit status with the captured stderr.  `env`, `pathExists`
and `exec` model `os.getenv`, `os.path.exists` and `subprocess.run`. -/
def WindowsPlugin.run (env : String → Option String) (pathExists : String → Bool)
    (exec : List String → ExecResult) (p : WindowsPlugin) (image_path : String) :
    Except PyErr String :=
  match env "VOLATILITY_BIN" with
  | none =>
      Except.error (PyErr.runtimeError "VOLATILITY_BIN\x27) environment variable is not set")
  | some vol_bin =>
    if vol_bin = "" then
      Except.error (PyErr.runtimeError "VOLATILITY_BIN\x27) environment variable is not set")
    else if pathExists vol_bin = false then
      Except.error (PyErr.runtimeError ("Volatility executable not found at " ++ vol_bin))
    else
      let result := exec [vol_bin, "-f", image_path, p.plugin_name]
      if result.returncode ≠ 0 then
        Except.error (PyErr.runtimeError
          ("Plugin " ++ p.name ++ " failed: " ++ result.stderr))
      else Except.ok result.stdout

/-- What the `/analyze/{plugin_name}` endpoint produces: a JSON body on
success, or an `HTTPException` with a status code and detail string. -/
inductive EndpointResult where
  | ok (body : List (String × String))
  | httpError (status : Nat) (detail : String)
deriving Repr, DecidableEq

/-- An exception escaping the `try` block of `analyze_with_plugin`: either the
`HTTPException(404, ...)` raised for an unknown plugin, or a Python exception
from `plugin.run`.  (FastAPI `HTTPException` subclasses `Exception`.) -/
inductive EndpointExc where
  | httpExc (status : Nat) (detail : String)
  | pyExc (e : PyErr)

/-- Python `str(e)` of such an exception: starlette `HTTPException.__str__`
yields `f"\x7bself.status_code\x7d: \x7bself.detail\x7d"`; plain exceptions
yield their message. -/
def EndpointExc.str : EndpointExc → String
  | EndpointExc.httpExc s d => toString s ++ ": " ++ d
  | EndpointExc.pyExc e => PyErr.str e

/-- The `GET /analyze/\x7bplugin_name\x7d` handler `analyze_with_plugin`: the
whole body sits inside `try`, and `except Exception as e` (which also catches
the `HTTPException(404, ...)` raised for an unknown plugin) re-raises as
`HTTPException(status_code=500, detail=str(e))`. -/
def analyze_with_plugin (plugins : Registry) (plugin_name image_path : String) :
    EndpointResult :=
  let tryBody : Except EndpointExc (List (String × String)) :=
    match get_plugin plugins plugin_name with
    | none =>
        Except.error (EndpointExc.httpExc 404 ("Plugin " ++ plugin_name ++ " not found"))
    | some plugin =>
        match plugin.run image_path with
        | Except.ok result => Except.ok [(plugin_name, result)]
        | Except.error e => Except.error (EndpointExc.pyExc e)
  match tryBody with
  | Except.ok body => EndpointResult.ok body
  | Except.error e => EndpointResult.httpError 500 (EndpointExc.str e)

/-- The value `response.json()` can produce: what Python `json.loads` builds
from a JSON document (numbers restricted to integers, which covers every
payload this system exchanges). -/
inductive JsonVal where
  | null
  | bool (b : Bool)
  | num (n : Int)
  | str (s : String)
  | arr (items : List JsonVal)
  | obj (entries : List (String × JsonVal))

/-- The single-quote character, the default quote of Python `repr` on strings. -/
def singleQuote : Char := Char.ofNat 39

/-- Lower-case hexadecimal digit, for Python string escapes. -/
def hexDigitChar (n : Nat) : Char :=
  if n < 10 then Char.ofNat (48 + n) else Char.ofNat (87 + n)

/-- The quote Python `repr` picks for a string: a double quote when the string
holds a single quote but no double quote, a single quote otherwise. -/
def pyReprQuote (s : String) : Char :=
  if s.data.contains singleQuote && ! s.data.contains '"' then '"' else singleQuote

/-- How Python `repr` renders one character of a string quoted with `q`. -/
def pyEscapeChar (q c : Char) : String :=
  if c = '\\' then "\\\\"
  else if c = q then String.mk ['\\', c]
  else if c = '\n' then "\\n"
  else if c = '\r' then "\\r"
  else if c = '\t' then "\\t"
  else if c.toNat < 32 || c.toNat = 127 then
    "\\x" ++ String.mk [hexDigitChar (c.toNat / 16), hexDigitChar (c.toNat % 16)]
  else String.mk [c]

/-- Python `repr` of a string. -/
def pyStrRepr (s : String) : String :=
  let q := pyReprQuote s
  String.mk [q] ++ String.join (s.data.map (pyEscapeChar q)) ++ String.mk [q]

mutual

/-- Python `repr` of a `json.loads` result: `None`/`True`/`False`, decimal
integers, quoted strings, `[...]` lists and `\x7b...\x7d` dicts with
`, `-separated, `repr`-rendered elements. -/
def pythonRepr : JsonVal → String
  | JsonVal.null => "None"
  | JsonVal.bool true => "True"
  | JsonVal.bool false => "False"
  | JsonVal.num n => toString n
  | JsonVal.str s => pyStrRepr s
  | JsonVal.arr items => "[" ++ pythonReprList items ++ "]"
  | JsonVal.obj entries => "\x7b" ++ pythonReprEntries entries ++ "\x7d"

/-- The comma-separated element list of a Python list `repr`. -/
def pythonReprList : List JsonVal → String
  | [] => ""
  | [x] => pythonRepr x
  | x :: y :: rest => pythonRepr x ++ ", " ++ pythonReprList (y :: rest)

/-- The comma-separated `key: value` list of a Python dict `repr`. -/
def pythonReprEntries : List (String × JsonVal) → String
  | [] => ""
  | [kv] => pyStrRepr kv.1 ++ ": " ++ pythonRepr kv.2
  | kv :: kw :: rest => pyStrRepr kv.1 ++ ": " ++ pythonRepr kv.2 ++ ", " ++ pythonReprEntries (kw :: rest)

end

/-- Python `str` of a `json.loads` result: a string is itself, anything else
renders as its `repr`. -/
def pythonStr : JsonVal → String
  | JsonVal.str s => s
  | JsonVal.null => pythonRepr JsonVal.null
  | JsonVal.bool b => pythonRepr (JsonVal.bool b)
  | JsonVal.num n => pythonRepr (JsonVal.num n)
  | JsonVal.arr items => pythonRepr (JsonVal.arr items)
  | JsonVal.obj entries => pythonRepr (JsonVal.obj entries)

/-- Worker of Python `str.splitlines`, accumulating the current line in
reverse: a line boundary is `\r\n`, `\r` or `\n`; a final unterminated line is
emitted only when non-empty. -/
def pySplitlinesGo : List Char → List Char → List String
  | [], acc => if acc.isEmpty then [] else [String.mk acc.reverse]
  | '\r' :: '\n' :: rest, acc => String.mk acc.reverse :: pySplitlinesGo rest []
  | '\r' :: rest, acc => String.mk acc.reverse :: pySplitlinesGo rest []
  | '\n' :: rest, acc => String.mk acc.reverse :: pySplitlinesGo rest []
  | c :: rest, acc => pySplitlinesGo rest (c :: acc)

/-- Python `str.splitlines` (over the line boundaries this system can meet):
`"a\nb" ↦ ["a", "b"]`, `"a\n" ↦ ["a"]`, `"" ↦ []`. -/
def pySplitlines (s : String) : List String :=
  pySplitlinesGo s.data []

/-- `requests.Response` as `HttpClient` observes it: the status code, the
decoded body `text`, and the outcome of `response.json()` — `some` the parsed
value, `none` when parsing raises `ValueError` (in particular an empty body is
not valid JSON, so `text = ""` always comes with `json = none`). -/
structure Response where
  status_code : Nat
  text : String
  json : Option JsonVal

/-- `response.ok` of `requests`: true iff the status code is below 400. -/
def Response.ok (r : Response) : Bool := r.status_code < 400

/-- The guard `isinstance(v, str) and '\n' in v` applied to one value. -/
def isMultilineStrB : JsonVal → Bool
  | JsonVal.str s => s.data.contains '\n'
  | _ => false

/-- `isinstance(json_data, dict) and any(isinstance(v, str) and '\n' in v for
v in json_data.values())`. -/
def hasMultilineValue : JsonVal → Bool
  | JsonVal.obj entries => entries.any (fun kv => isMultilineStrB kv.2)
  | _ => false

/-- `json_data.values()` iteration support: the entries of a dict, `[]`
otherwise (the loop is only reached for dicts). -/
def jsonEntries : JsonVal → List (String × JsonVal)
  | JsonVal.obj entries => entries
  | _ => []

/-- The `for value in json_data.values()` loop: the first string value
containing a line break. -/
def findMultilineValue : List (String × JsonVal) → Option String
  | [] => none
  | kv :: rest =>
      match kv.2 with
      | JsonVal.str s =>
          if s.data.contains '\n' then some s else findMultilineValue rest
      | _ => findMultilineValue rest

/-- `HttpClient._process_response`: a non-ok status yields the one-line
`"Error \x7bstatus\x7d: \x7btext.strip()\x7d"` (Python `strip` modelled by
`String.trim`); otherwise try `response.json()`: on a dict with a multi-line
string value return the first such value split into lines, on any other parsed
value return `[str(json_data)]`, and on a `ValueError` return
`response.text.splitlines()`. -/
def process_response (response : Response) : List String :=
  if response.ok = false then
    ["Error " ++ toString response.status_code ++ ": " ++ response.text.trim]
  else
    match response.json with
    | some json_data =>
        if hasMultilineValue json_data then
          match findMultilineValue (jsonEntries json_data) with
          | some value => pySplitlines value
          | none => [pythonStr json_data]
        else [pythonStr json_data]
    | none => pySplitlines response.text

/-- `HttpClient._handle_request_error`: log and return the one-line message. -/
def handle_request_error (e : String) : List String :=
  ["Request failed: " ++ e]

/-- Python `str.upper` over the ASCII range of HTTP method names. -/
def pyUpper (s : String) : String := String.mk (s.data.map Char.toUpper)

/-- Query parameters (`Dict[str, Any]`): ordered keys with possibly-`None`
string values, as the MCP layer builds them. -/
abbrev Params := List (String × Option String)

/-- The `HttpClient` instance state: its configured timeout. -/
structure HttpClient where
  timeout : Nat

/-- `HttpClient.DEFAULT_TIMEOUT = 30`. -/
def DEFAULT_TIMEOUT : Nat := 30

/-- `HttpClient._execute_request`: dispatch on `method.upper()`; `requests.get`
and `requests.post` are the `doGet`/`doPost` parameters, returning either a
response or the text of the exception they raise (timeouts included); an
unsupported method returns one descriptive line; any transport exception is
converted by `_handle_request_error`. -/
def HttpClient.execute_request
    (doGet : String → Params → Nat → Except String Response)
    (doPost : String → Option Params → Params → Nat → Except String Response)
    (client : HttpClient) (url method : String) (params : Params)
    (data : Option Params) : List String :=
  if pyUpper method = "GET" then
    match doGet url params client.timeout with
    | Except.ok response => process_response response
    | Except.error e => handle_request_error e
  else if pyUpper method = "POST" then
    match doPost url data params client.timeout with
    | Except.ok response => process_response response
    | Except.error e => handle_request_error e
  else ["Unsupported HTTP method: " ++ method]

/-- `HttpClient.request`: default the params, build
`f"\x7bbase_url\x7d/\x7bendpoint\x7d"`, delegate to `_execute_request`. -/
def HttpClient.request (doGet : String → Params → Nat → Except String Response)
    (doPost : String → Option Params → Params → Nat → Except String Response)
    (client : HttpClient) (base_url endpoint method : String)
    (params : Option Params) (data : Option Params) : List String :=
  let actualParams := params.getD []
  let url := base_url ++ "/" ++ endpoint
  HttpClient.execute_request doGet doPost client url method actualParams data

/-- `HttpClient.get`: a GET through `request` with no body. -/
def HttpClient.get (doGet : String → Params → Nat → Except String Response)
    (doPost : String → Option Params → Params → Nat → Except String Response)
    (client : HttpClient) (base_url endpoint : String) (params : Option Params) :
    List String :=
  HttpClient.request doGet doPost client base_url endpoint "GET" params none

/-- `HttpClient.http_get`: construct a default-configured client and GET. -/
def HttpClient.http_get (doGet : String → Params → Nat → Except String Response)
    (doPost : String → Option Params → Params → Nat → Except String Response)
    (base_url endpoint : String) (params : Option Params) : List String :=
  HttpClient.get doGet doPost ⟨DEFAULT_TIMEOUT⟩ base_url endpoint params

/-- The `VolatilityMCP` instance state the tools read: the API base URL and
the configured memory image path (`None` until `set_memory_image`). -/
structure VolatilityMCP where
  vol_url : String
  memory_image_path : Option String

/-- `VolatilityMCP.__init__` with the default URL argument: the image path
starts as `None`. -/
def VolatilityMCP.init (vol_url : String) : VolatilityMCP :=
  ⟨vol_url, none⟩

/-- `VolatilityMCP.set_memory_image`. -/
def VolatilityMCP.set_memory_image (m : VolatilityMCP) (image_path : String) :
    VolatilityMCP :=
  ⟨m.vol_url, some image_path⟩

/-- `VolatilityMCP.get_processes`: `HttpClient.http_get(self.vol_url,
"analyze/process", params=\x7b"image_path": self.memory_image_path\x7d)`. -/
def VolatilityMCP.get_processes
    (doGet : String → Params → Nat → Except String Response)
    (doPost : String → Option Params → Params → Nat → Except String Response)
    (m : VolatilityMCP) : List String :=
  HttpClient.http_get doGet doPost m.vol_url "analyze/process"
    (some [("image_path", m.memory_image_path)])

/-- `VolatilityMCP.get_connections`: same shape against `analyze/connection`. -/
def VolatilityMCP.get_connections
    (doGet : String → Params → Nat → Except String Response)
    (doPost : String → Option Params → Params → Nat → Except String Response)
    (m : VolatilityMCP) : List String :=
  HttpClient.http_get doGet doPost m.vol_url "analyze/connection"
    (some [("image_path", m.memory_image_path)])

/-- `VolatilityMCP.get_cmdline`: same shape against `analyze/cmdline`. -/
def VolatilityMCP.get_cmdline
    (doGet : String → Params → Nat → Except String Response)
    (doPost : String → Option Params → Params → Nat → Except String Response)
    (m : VolatilityMCP) : List String :=
  HttpClient.http_get doGet doPost m.vol_url "analyze/cmdline"
    (some [("image_path", m.memory_image_path)])

/-- The per-plugin value `analyze_all` stores: the output on success, the
`"Error: "`-prefixed exception text on failure. -/
def runResult (p : VolatilityPlugin) (image_path : String) : String :=
  match p.run image_path with
  | Except.ok out => out
  | Except.error e => "Error: " ++ PyErr.str e

/-! ### Helper lemmas about the dictionary model -/

theorem dictGet_nil {α : Type} (n : String) : dictGet ([] : List (String × α)) n = none := rfl

theorem dictGet_cons {α : Type} (p : String × α) (rest : List (String × α)) (n : String) :
    dictGet (p :: rest) n = if p.1 == n then some p.2 else dictGet rest n := by
  unfold dictGet
  by_cases h : (p.1 == n) = true
  · rw [@List.find?_cons_of_pos _ (fun q => q.1 == n) p rest h, if_pos h]
    rfl
  · rw [@List.find?_cons_of_neg _ (fun q => q.1 == n) p rest h, if_neg h]

theorem dictGet_dictInsert {α : Type} (d : List (String × α)) (k n : String) (v : α) :
    dictGet (dictInsert d k v) n = if n = k then some v else dictGet d n := by
  induction d with
  | nil =>
      by_cases h : n = k
      · subst h; simp [dictInsert, dictGet_cons]
      · have hb : (k == n) = false := beq_eq_false_iff_ne.mpr (Ne.symm h)
        simp [dictInsert, dictGet_cons, dictGet_nil, hb, h]
  | cons p rest ih =>
      by_cases hpk : p.1 = k
      · subst hpk
        by_cases hnk : n = p.1
        · simp [dictInsert, dictGet_cons, hnk, beq_iff_eq]
        · have hb : (p.1 == n) = false := beq_eq_false_iff_ne.mpr (Ne.symm hnk)
          simp [dictInsert, dictGet_cons, hnk, hb]
      · by_cases hnk : n = k
        · subst hnk
          have hb : (p.1 == n) = false := beq_eq_false_iff_ne.mpr hpk
          simp [dictInsert, hpk, dictGet_cons, hb, ih]
        · simp [dictInsert, hpk, dictGet_cons, hnk, ih]

theorem dictInsert_append {α : Type} (d : List (String × α)) (k : String) (v : α)
    (h : k ∉ d.map Prod.fst) : dictInsert d k v = d ++ [(k, v)] := by
  induction d with
  | nil => rfl
  | cons p rest ih =>
      simp only [List.map_cons, List.mem_cons, not_or] at h
      have hne : ¬ p.1 = k := fun hh => h.1 (Eq.symm hh)
      simp [dictInsert, hne, ih h.2]

theorem foldl_const_acc {α β : Type} (l : List β) (a : α) :
    l.foldl (fun acc _ => acc) a = a := by
  induction l generalizing a with
  | nil => rfl
  | cons x xs ih => rw [List.foldl_cons]; exact ih a

theorem dictGet_map_val {α β : Type} (l : List (String × α)) (g : String × α → β) (n : String) :
    dictGet (l.map (fun np => (np.1, g np))) n = (l.find? (fun np => np.1 == n)).map g := by
  induction l with
  | nil => rfl
  | cons p rest ih =>
      by_cases h : (p.1 == n) = true
      · rw [List.map_cons, dictGet_cons,
          @List.find?_cons_of_pos _ (fun q => q.1 == n) p rest h]
        simp [h]
      · rw [List.map_cons, dictGet_cons,
          @List.find?_cons_of_neg _ (fun q => q.1 == n) p rest h]
        simp [h, ih]

theorem get_plugin_foldl (ps : List VolatilityPlugin) (d : Registry) (N : String) :
    get_plugin (ps.foldl register_plugin d) N
      = (ps.reverse.find? (fun p => p.name == N)).or (get_plugin d N) := by
  induction ps generalizing d with
  | nil => simp
  | cons p ps ih =>
      rw [List.foldl_cons, ih (register_plugin d p), List.reverse_cons,
        List.find?_append, Option.or_assoc]
      congr 1
      by_cases h : (p.name == N) = true
      · rw [show get_plugin (register_plugin d p) N
            = dictGet (dictInsert d p.name p) N from rfl, dictGet_dictInsert,
          if_pos (beq_iff_eq.mp h).symm,
          @List.find?_cons_of_pos _ (fun q => q.name == N) p [] h]
        rfl
      · rw [show get_plugin (register_plugin d p) N
            = dictGet (dictInsert d p.name p) N from rfl, dictGet_dictInsert,
          if_neg (fun hh => h (beq_iff_eq.mpr hh.symm)),
          @List.find?_cons_of_neg _ (fun q => q.name == N) p [] h]
        simp [get_plugin]

theorem analyze_all_foldl_eq (image_path : String) (plugins : Registry)
    (acc : List (String × String))
    (hnd : (plugins.map Prod.fst).Nodup)
    (hdisj : ∀ np ∈ plugins, np.1 ∉ acc.map Prod.fst) :
    plugins.foldl
        (fun results np => dictInsert results np.1 (runResult np.2 image_path)) acc
      = acc ++ plugins.map (fun np => (np.1, runResult np.2 image_path)) := by
  induction plugins generalizing acc with
  | nil => simp
  | cons np rest ih =>
      rw [List.foldl_cons,
        dictInsert_append acc np.1 _ (hdisj np (List.mem_cons_self np rest))]
      rw [List.map_cons] at hnd
      have hhd : np.1 ∉ rest.map Prod.fst := (List.nodup_cons.mp hnd).1
      have hnd' : (rest.map Prod.fst).Nodup := (List.nodup_cons.mp hnd).2
      have hdisj' : ∀ nq ∈ rest,
          nq.1 ∉ (acc ++ [(np.1, runResult np.2 image_path)]).map Prod.fst := by
        intro nq hq hmem
        rw [List.map_append] at hmem
        rcases List.mem_append.mp hmem with hmem | hmem
        · exact hdisj nq (List.mem_cons_of_mem np hq) hmem
        · have heq : nq.1 = np.1 := by simpa using hmem
          exact hhd (heq ▸ List.mem_map_of_mem Prod.fst hq)
      rw [ih _ hnd' hdisj']
      simp

theorem analyze_all_eq_map (plugins : Registry) (image_path : String)
    (hnd : (plugins.map Prod.fst).Nodup) :
    analyze_all plugins image_path
      = plugins.map (fun np => (np.1, runResult np.2 image_path)) := by
  have h := analyze_all_foldl_eq image_path plugins [] hnd (by simp)
  rw [List.nil_append] at h
  exact h

theorem pySplitlinesGo_eq_nil_iff (l acc : List Char) :
    pySplitlinesGo l acc = [] ↔ (l = [] ∧ acc = []) := by
  induction l, acc using pySplitlinesGo.induct with
  | case1 acc hacc =>
      have hnil : acc = [] := List.isEmpty_iff.mp hacc
      simp [pySplitlinesGo, hacc, hnil]
  | case2 acc hacc =>
      have hnil : acc ≠ [] := by simpa [List.isEmpty_iff] using hacc
      simp [pySplitlinesGo, hacc, hnil]
  | case3 rest acc ih => simp [pySplitlinesGo]
  | case4 rest acc hne ih => simp [pySplitlinesGo, hne]
  | case5 rest acc ih => simp [pySplitlinesGo]
  | case6 c rest acc hne1 hne2 hne3 ih => simp [pySplitlinesGo, hne1, hne2, hne3, ih]

theorem pySplitlines_eq_nil_iff (s : String) : pySplitlines s = [] ↔ s = "" := by
  cases s with
  | mk data => simp [pySplitlines, pySplitlinesGo_eq_nil_iff, String.ext_iff]

theorem findMultilineValue_contains (entries : List (String × JsonVal)) (v : String)
    (h : findMultilineValue entries = some v) : v.data.contains '\n' = true := by
  induction entries with
  | nil => simp [findMultilineValue] at h
  | cons kv rest ih =>
      cases hkv : kv.2 with
      | str s =>
          by_cases hs : '\n' ∈ s.data
          · have heq : s = v := by simpa [findMultilineValue, hkv, hs] using h
            rw [← heq]; simpa using hs
          · exact ih (by simpa [findMultilineValue, hkv, hs] using h)
      | null => exact ih (by simpa [findMultilineValue, hkv] using h)
      | bool b => exact ih (by simpa [findMultilineValue, hkv] using h)
      | num n => exact ih (by simpa [findMultilineValue, hkv] using h)
      | arr items => exact ih (by simpa [findMultilineValue, hkv] using h)
      | obj es => exact ih (by simpa [findMultilineValue, hkv] using h)

theorem findMultilineValue_first (pre : List (String × JsonVal)) (k v : String)
    (rest : List (String × JsonVal))
    (hpre : ∀ kv ∈ pre, isMultilineStrB kv.2 = false)
    (hv : v.data.contains '\n' = true) :
    findMultilineValue (pre ++ (k, JsonVal.str v) :: rest) = some v := by
  have hv2 : '\n' ∈ v.data := by simpa using hv
  induction pre with
  | nil => simp [findMultilineValue, hv2]
  | cons kv pre ih =>
      have h1 : isMultilineStrB kv.2 = false := hpre kv (List.mem_cons_self kv pre)
      have h2 : ∀ kw ∈ pre, isMultilineStrB kw.2 = false :=
        fun kw hw => hpre kw (List.mem_cons_of_mem kv hw)
      cases hkv : kv.2 with
      | str s =>
          have hs : '\n' ∉ s.data := by
            simpa [isMultilineStrB, hkv] using h1
          simp [findMultilineValue, hkv, hs, ih h2]
      | null => simp [findMultilineValue, hkv, ih h2]
      | bool b => simp [findMultilineValue, hkv, ih h2]
      | num n => simp [findMultilineValue, hkv, ih h2]
      | arr items => simp [findMultilineValue, hkv, ih h2]
      | obj es => simp [findMultilineValue, hkv, ih h2]

theorem process_response_eq_nil_iff (r : Response) :
    process_response r = [] ↔ (r.ok = true ∧ r.json = none ∧ r.text = "") := by
  unfold process_response
  cases hok : r.ok with
  | false => simp
  | true =>
      cases hj : r.json with
      | none => simp [pySplitlines_eq_nil_iff]
      | some j =>
          by_cases hm : hasMultilineValue j = true
          · cases hf : findMultilineValue (jsonEntries j) with
            | some v =>
                have hv := findMultilineValue_contains _ _ hf
                have hne : pySplitlines v ≠ [] := by
                  intro hnil
                  rw [pySplitlines_eq_nil_iff] at hnil
                  subst hnil
                  exact absurd hv (by decide)
                simp [hm, hf, hne]
            | none => simp [hm, hf]
          · simp [hm]

/-! ### Claim theorems -/

/-- C1: for every artifact path and every registry (with the dict invariant of
unique keys), `analyze_all` returns a mapping with exactly one entry per
registered capability, in registry order; a capability whose run succeeds maps
to its output and one whose run raises maps to `"Error: <message>"` (this is
`runResult`); no failure removes or alters any other entry, and `analyze_all`
is a total function (it never raises). -/
theorem analyze_all_per_capability_isolation (plugins : Registry) (image_path : String)
    (hnd : (plugins.map Prod.fst).Nodup) :
    (analyze_all plugins image_path).map Prod.fst = plugins.map Prod.fst ∧
    ∀ n p, dictGet plugins n = some p →
      dictGet (analyze_all plugins image_path) n = some (runResult p image_path) := by
  have heq := analyze_all_eq_map plugins image_path hnd
  constructor
  · rw [heq, List.map_map]
    rfl
  · intro n p hget
    rw [heq, dictGet_map_val]
    unfold dictGet at hget
    rcases hfind : plugins.find? (fun q => q.1 == n) with _ | q
    · rw [hfind] at hget; simp at hget
    · rw [hfind] at hget
      simp only [Option.map_some'] at hget
      rw [hfind, Option.map_some']
      rw [show q.2 = p from by injection hget]

/-- C1 witness: a concrete two-plugin registry with one failing capability. -/
theorem analyze_all_per_capability_isolation_witness :
    dictGet (analyze_all
        [("good", ⟨"good", fun _ => Except.ok "fine"⟩),
         ("bad", ⟨"bad", fun _ => Except.error (PyErr.runtimeError "boom")⟩)]
        "img.mem") "bad" = some "Error: boom" ∧
    dictGet (analyze_all
        [("good", ⟨"good", fun _ => Except.ok "fine"⟩),
         ("bad", ⟨"bad", fun _ => Except.error (PyErr.runtimeError "boom")⟩)]
        "img.mem") "good" = some "fine" ∧
    (analyze_all
        [("good", ⟨"good", fun _ => Except.ok "fine"⟩),
         ("bad", ⟨"bad", fun _ => Except.error (PyErr.runtimeError "boom")⟩)]
        "img.mem").map Prod.fst = ["good", "bad"] := by
  have h := analyze_all_per_capability_isolation
    [("good", ⟨"good", fun _ => Except.ok "fine"⟩),
     ("bad", ⟨"bad", fun _ => Except.error (PyErr.runtimeError "boom")⟩)]
    "img.mem" (by decide)
  refine ⟨?_, ?_, h.1⟩
  · exact h.2 "bad" ⟨"bad", fun _ => Except.error (PyErr.runtimeError "boom")⟩ rfl
  · exact h.2 "good" ⟨"good", fun _ => Except.ok "fine"⟩ rfl

/-- C6: for every sequence of `register_plugin` calls starting from the empty
registry, `get_plugin N` returns the most recently registered plugin named `N`
(the first match in the reversed registration sequence) — so re-registering a
name silently overwrites — and returns `none` for a name never registered;
being a total function, it never raises. -/
theorem get_plugin_last_registered (ps : List VolatilityPlugin) (N : String) :
    get_plugin (ps.foldl register_plugin []) N
      = ps.reverse.find? (fun p => p.name == N) := by
  rw [get_plugin_foldl]
  exact Option.or_none

/-- C8: `analyze` on a name absent from the registry fails with the
`CapabilityNotFound` error (`ValueError("Plugin <name> not found")`) — the
result is fully determined without consulting any plugin's `run`, so no
execution strategy is invoked — and on a present name it returns exactly that
plugin's `run` outcome: its output verbatim, or its propagated failure. -/
theorem analyze_unknown_capability (plugins : Registry) (image_path name : String) :
    (get_plugin plugins name = none →
      analyze plugins image_path name
        = Except.error (PyErr.valueError ("Plugin " ++ name ++ " not found"))) ∧
    (∀ p, get_plugin plugins name = some p →
      analyze plugins image_path name = p.run image_path) := by
  constructor
  · intro h; unfold analyze; rw [h]
  · intro p h; unfold analyze; rw [h]

/-- C8 witness: an unknown name fails with `CapabilityNotFound`; a known name
returns its plugin's output. -/
theorem analyze_unknown_capability_witness :
    analyze [("process", ⟨"process", fun _ => Except.ok "pslist output"⟩)]
        "img.mem" "ghost"
      = Except.error (PyErr.valueError "Plugin ghost not found") ∧
    analyze [("process", ⟨"process", fun _ => Except.ok "pslist output"⟩)]
        "img.mem" "process"
      = Except.ok "pslist output" := by
  constructor
  · exact (analyze_unknown_capability
      [("process", ⟨"process", fun _ => Except.ok "pslist output"⟩)]
      "img.mem" "ghost").1 rfl
  · exact (analyze_unknown_capability
      [("process", ⟨"process", fun _ => Except.ok "pslist output"⟩)]
      "img.mem" "process").2 ⟨"process", fun _ => Except.ok "pslist output"⟩ rfl

/-- C7: `validate_plugins` checks the shared `VOLATILITY_BIN` precondition
once and short-circuits: unset variable yields exactly the single
variable-missing error (for every registry, so no per-capability check runs);
a set but nonexistent path yields exactly the single not-found error; a valid
precondition yields the empty error list (for every registry, in particular
one holding only Windows-family capabilities). -/
theorem validate_plugins_shared_precondition (env : String → Option String)
    (pathExists : String → Bool) (plugins : Registry) :
    (env "VOLATILITY_BIN" = none →
      validate_plugins env pathExists plugins
        = ["VOLATILITY_BIN environment variable is not set"]) ∧
    (∀ v, env "VOLATILITY_BIN" = some v → v ≠ "" → pathExists v = false →
      validate_plugins env pathExists plugins
        = ["Volatility executable not found at " ++ v]) ∧
    (∀ v, env "VOLATILITY_BIN" = some v → v ≠ "" → pathExists v = true →
      validate_plugins env pathExists plugins = []) := by
  refine ⟨?_, ?_, ?_⟩
  · intro h; simp [validate_plugins, h]
  · intro v h hne hpe; simp [validate_plugins, h, hne, hpe]
  · intro v h hne hpe; simp [validate_plugins, h, hne, hpe, foldl_const_acc]

/-- C7 witness: the three precondition cases at concrete environments. -/
theorem validate_plugins_shared_precondition_witness :
    validate_plugins (fun _ => none) (fun _ => true) []
      = ["VOLATILITY_BIN environment variable is not set"] ∧
    validate_plugins (fun _ => some "/opt/vol3") (fun _ => false) []
      = ["Volatility executable not found at /opt/vol3"] ∧
    validate_plugins (fun _ => some "/opt/vol3") (fun _ => true) [] = [] := by
  refine ⟨?_, ?_, ?_⟩
  · exact (validate_plugins_shared_precondition (fun _ => none) (fun _ => true) []).1 rfl
  · exact (validate_plugins_shared_precondition (fun _ => some "/opt/vol3")
      (fun _ => false) []).2.1 "/opt/vol3" rfl (by decide) rfl
  · exact (validate_plugins_shared_precondition (fun _ => some "/opt/vol3")
      (fun _ => true) []).2.2 "/opt/vol3" rfl (by decide) rfl

/-- C9: `WindowsPlugin.run` checks the configured executable path first and —
for every possible subprocess behaviour, so before any invocation — fails with
the configuration `RuntimeError` when the variable is unset or the path does
not exist; with a valid configuration it invokes exactly
`[vol_bin, "-f", image_path, plugin_name]`, returns the captured stdout on
exit status zero, and fails with the `CapabilityExecutionFailed`
`RuntimeError` carrying the captured stderr on a non-zero exit status. -/
theorem windows_plugin_run_characterization (env : String → Option String)
    (pathExists : String → Bool) (p : WindowsPlugin) (image_path : String) :
    (env "VOLATILITY_BIN" = none → ∀ exec,
      WindowsPlugin.run env pathExists exec p image_path
        = Except.error
            (PyErr.runtimeError "VOLATILITY_BIN\x27) environment variable is not set")) ∧
    (∀ v, env "VOLATILITY_BIN" = some v → v ≠ "" → pathExists v = false → ∀ exec,
      WindowsPlugin.run env pathExists exec p image_path
        = Except.error
            (PyErr.runtimeError ("Volatility executable not found at " ++ v))) ∧
    (∀ v exec, env "VOLATILITY_BIN" = some v → v ≠ "" → pathExists v = true →
      (exec [v, "-f", image_path, p.plugin_name]).returncode = 0 →
      WindowsPlugin.run env pathExists exec p image_path
        = Except.ok (exec [v, "-f", image_path, p.plugin_name]).stdout) ∧
    (∀ v exec, env "VOLATILITY_BIN" = some v → v ≠ "" → pathExists v = true →
      (exec [v, "-f", image_path, p.plugin_name]).returncode ≠ 0 →
      WindowsPlugin.run env pathExists exec p image_path
        = Except.error
            (PyErr.runtimeError ("Plugin " ++ p.name ++ " failed: "
              ++ (exec [v, "-f", image_path, p.plugin_name]).stderr))) := by
  refine ⟨?_, ?_, ?_, ?_⟩
  · intro h exec; simp [WindowsPlugin.run, h]
  · intro v h hne hpe exec; simp [WindowsPlugin.run, h, hne, hpe]
  · intro v exec h hne hpe hrc; simp [WindowsPlugin.run, h, hne, hpe, hrc]
  · intro v exec h hne hpe hrc; simp [WindowsPlugin.run, h, hne, hpe, hrc]

/-- C9 witness: the configured-and-successful case at a concrete environment,
executable and plugin. -/
theorem windows_plugin_run_characterization_witness :
    WindowsPlugin.run (fun _ => some "/opt/vol3") (fun _ => true)
        (fun _ => ⟨0, "PID 4 System", ""⟩)
        ⟨"process", "windows.pslist.PsList"⟩ "img.mem"
      = Except.ok "PID 4 System" := by
  exact (windows_plugin_run_characterization (fun _ => some "/opt/vol3")
      (fun _ => true) ⟨"process", "windows.pslist.PsList"⟩ "img.mem").2.2.1
    "/opt/vol3" (fun _ => ⟨0, "PID 4 System", ""⟩) rfl (by decide) rfl rfl

/-- C2 (code bug): the endpoint's `raise HTTPException(status_code=404, ...)`
for an unknown capability sits inside the `try` block, so the blanket
`except Exception as e` catches it and re-raises
`HTTPException(500, str(e))` — the observable response for an unknown
capability is therefore HTTP 500 (with the stringified 404 as its detail),
not the 404 the spec states; an execution failure of a known capability is
surfaced as HTTP 500 with the error detail, as the spec states. -/
theorem analyze_with_plugin_unknown_gives_500 :
    analyze_with_plugin [("process", ⟨"process", fun _ => Except.ok "pslist output"⟩)]
        "nonexistent" "img.mem"
      = EndpointResult.httpError 500 "404: Plugin nonexistent not found" ∧
    analyze_with_plugin
        [("process", ⟨"process", fun _ => Except.error (PyErr.runtimeError "vol failed")⟩)]
        "process" "img.mem"
      = EndpointResult.httpError 500 "vol failed" := by
  exact ⟨rfl, rfl⟩

/-- C3 counterexample: a 2xx response with an empty body is not parseable as
JSON, so `_process_response` returns `response.text.splitlines()`, which is the
EMPTY list — refuting "always returns a non-empty list of strings". -/
theorem execute_request_empty_body_counterexample :
    HttpClient.execute_request (fun _ _ _ => Except.ok ⟨200, "", none⟩)
        (fun _ _ _ _ => Except.error "unused") ⟨30⟩
        "http://localhost:8000/analyze/process" "GET" [] none
      = [] := by decide

/-- C3 (amended): `_execute_request` is a total function (never raises) and
returns a list of strings: an unsupported method yields the single
descriptive line, a transport exception yields the single
`"Request failed: <text>"` line, and a processed response yields the empty
list exactly when it is a successful response whose body is empty (hence not
JSON) — in every other case the result is non-empty. -/
theorem execute_request_total_characterization
    (doGet : String → Params → Nat → Except String Response)
    (doPost : String → Option Params → Params → Nat → Except String Response)
    (client : HttpClient) (url method : String) (params : Params)
    (data : Option Params) :
    (pyUpper method ≠ "GET" → pyUpper method ≠ "POST" →
      HttpClient.execute_request doGet doPost client url method params data
        = ["Unsupported HTTP method: " ++ method]) ∧
    (∀ e, pyUpper method = "GET" → doGet url params client.timeout = Except.error e →
      HttpClient.execute_request doGet doPost client url method params data
        = ["Request failed: " ++ e]) ∧
    (∀ e, pyUpper method = "POST" → doPost url data params client.timeout = Except.error e →
      HttpClient.execute_request doGet doPost client url method params data
        = ["Request failed: " ++ e]) ∧
    (∀ r, pyUpper method = "GET" → doGet url params client.timeout = Except.ok r →
      (HttpClient.execute_request doGet doPost client url method params data = []
        ↔ (r.ok = true ∧ r.json = none ∧ r.text = ""))) ∧
    (∀ r, pyUpper method = "POST" → doPost url data params client.timeout = Except.ok r →
      (HttpClient.execute_request doGet doPost client url method params data = []
        ↔ (r.ok = true ∧ r.json = none ∧ r.text = ""))) := by
  refine ⟨?_, ?_, ?_, ?_, ?_⟩
  · intro hg hp
    simp [HttpClient.execute_request, hg, hp]
  · intro e hg hres
    simp [HttpClient.execute_request, hg, hres, handle_request_error]
  · intro e hp hres
    by_cases hg : pyUpper method = "GET"
    · rw [hg] at hp; exact absurd hp (by decide)
    · simp [HttpClient.execute_request, hg, hp, hres, handle_request_error]
  · intro r hg hres
    simp [HttpClient.execute_request, hg, hres, process_response_eq_nil_iff]
  · intro r hp hres
    by_cases hg : pyUpper method = "GET"
    · rw [hg] at hp; exact absurd hp (by decide)
    · simp [HttpClient.execute_request, hg, hp, hres, process_response_eq_nil_iff]

/-- C3 witness: a GET whose transport raises a timeout yields exactly the
single `"Request failed: ..."` line. -/
theorem execute_request_total_characterization_witness :
    HttpClient.execute_request (fun _ _ _ => Except.error "timed out")
        (fun _ _ _ _ => Except.error "unused") ⟨30⟩
        "http://localhost:8000/analyze/process" "GET" [] none
      = ["Request failed: timed out"] := by
  exact (execute_request_total_characterization (fun _ _ _ => Except.error "timed out")
      (fun _ _ _ _ => Except.error "unused") ⟨30⟩
      "http://localhost:8000/analyze/process" "GET" [] none).2.1
    "timed out" (by decide) rfl

/-- C4: a successful (2xx) response whose body parses as a JSON object holding
at least one string value with an embedded line break normalizes to the first
such value (in the mapping's iteration order: no earlier value is a
line-break-containing string), split into its lines. -/
theorem process_response_first_multiline_value (r : Response)
    (pre rest : List (String × JsonVal)) (k v : String)
    (h1 : 200 ≤ r.status_code) (h2 : r.status_code < 300)
    (hjson : r.json = some (JsonVal.obj (pre ++ (k, JsonVal.str v) :: rest)))
    (hpre : ∀ kv ∈ pre, isMultilineStrB kv.2 = false)
    (hv : v.data.contains '\n' = true) :
    process_response r = pySplitlines v := by
  have hok : r.ok = true := by
    simp only [Response.ok, decide_eq_true_eq]
    omega
  have hm : hasMultilineValue (JsonVal.obj (pre ++ (k, JsonVal.str v) :: rest)) = true := by
    simp only [hasMultilineValue, List.any_append, List.any_cons, Bool.or_eq_true]
    exact Or.inr (Or.inl (by simpa [isMultilineStrB] using hv))
  simp [process_response, hok, hjson, hm, jsonEntries,
    findMultilineValue_first pre k v rest hpre hv]

/-- C4 witness: the JSON body with entries `a` (a two-line string) and `b`
normalizes to exactly the two lines of `a`. -/
theorem process_response_first_multiline_value_witness :
    process_response ⟨200, "\x7b\"a\": \"line1\\nline2\", \"b\": 1\x7d",
        some (JsonVal.obj [("a", JsonVal.str "line1\nline2"), ("b", JsonVal.num 1)])⟩
      = ["line1", "line2"] := by
  have h := process_response_first_multiline_value
    ⟨200, "\x7b\"a\": \"line1\\nline2\", \"b\": 1\x7d",
      some (JsonVal.obj [("a", JsonVal.str "line1\nline2"), ("b", JsonVal.num 1)])⟩
    [] [("b", JsonVal.num 1)] "a" "line1\nline2"
    (by decide) (by decide) rfl (by simp) (by decide)
  exact h.trans (by decide)

/-- C5 counterexample: the JSON body whose parsed value is the object
mapping "a" to 1 does NOT normalize to a list holding the JSON text with
double-quoted keys: Python `str` of the parsed dict single-quotes the keys. -/
theorem process_response_python_str_counterexample :
    process_response ⟨200, "\x7b\"a\": 1\x7d", some (JsonVal.obj [("a", JsonVal.num 1)])⟩
      ≠ ["\x7b\"a\": 1\x7d"] := by decide

/-- C5 (amended): a successful (2xx) response whose body parses as JSON with
no string value containing a line break normalizes to the one-element list of
the parsed value's Python textual representation (`str(json_data)`), which for
the body mapping "a" to 1 is the single-quoted dict rendering. -/
theorem process_response_no_multiline_singleton (r : Response) (j : JsonVal)
    (h1 : 200 ≤ r.status_code) (h2 : r.status_code < 300)
    (hjson : r.json = some j) (hm : hasMultilineValue j = false) :
    process_response r = [pythonStr j] := by
  have hok : r.ok = true := by
    simp only [Response.ok, decide_eq_true_eq]
    omega
  simp [process_response, hok, hjson, hm]

/-- C5 witness: the concrete body mapping "a" to 1 normalizes to the
one-element list holding the Python dict rendering with single-quoted keys. -/
theorem process_response_no_multiline_singleton_witness :
    process_response ⟨200, "\x7b\"a\": 1\x7d", some (JsonVal.obj [("a", JsonVal.num 1)])⟩
      = ["\x7b\x27a\x27: 1\x7d"] := by
  have h := process_response_no_multiline_singleton
    ⟨200, "\x7b\"a\": 1\x7d", some (JsonVal.obj [("a", JsonVal.num 1)])⟩
    (JsonVal.obj [("a", JsonVal.num 1)]) (by decide) (by decide) rfl (by decide)
  exact h.trans (by decide)

/-- C10: a freshly constructed `VolatilityMCP` has `memory_image_path = None`,
and each of the three tools runs without failing or refusing: it issues its
GET (through a default-configured `HttpClient`, timeout 30) against the fixed
sub-endpoint with the query parameter `image_path` bound to `None`, and
returns the processed transport outcome. -/
theorem volatility_mcp_tools_fresh_state (u : String)
    (doGet : String → Params → Nat → Except String Response)
    (doPost : String → Option Params → Params → Nat → Except String Response) :
    (VolatilityMCP.init u).memory_image_path = none ∧
    VolatilityMCP.get_processes doGet doPost (VolatilityMCP.init u)
      = (match doGet (u ++ "/" ++ "analyze/process") [("image_path", none)] DEFAULT_TIMEOUT with
         | Except.ok r => process_response r
         | Except.error e => handle_request_error e) ∧
    VolatilityMCP.get_connections doGet doPost (VolatilityMCP.init u)
      = (match doGet (u ++ "/" ++ "analyze/connection") [("image_path", none)] DEFAULT_TIMEOUT with
         | Except.ok r => process_response r
         | Except.error e => handle_request_error e) ∧
    VolatilityMCP.get_cmdline doGet doPost (VolatilityMCP.init u)
      = (match doGet (u ++ "/" ++ "analyze/cmdline") [("image_path", none)] DEFAULT_TIMEOUT with
         | Except.ok r => process_response r
         | Except.error e => handle_request_error e) := by
  refine ⟨rfl, ?_, ?_, ?_⟩ <;> rfl
